import Mathlib

/-!
Verification development for the nccreation browser extension.

The definitions below are a shallow embedding of the extension's JavaScript
source into Lean:

* timestamps are modelled as integer milliseconds (`Int`), local time with a
  fixed UTC offset, so truncating a `Date` to local midnight is flooring the
  timestamp to a multiple of 86400000;
* JavaScript truthiness on optional string fields (`v || d`) is modelled on
  `Option String`, where `none` (missing field) and `some ""` are falsy;
* the webhook item shape is `WorkItem` with the two fields the classifier
  reads; the portal scrape result is a pair of `Finset String`;
* the background service worker's timer state and its `chrome.storage`
  listener are modelled as an explicit event-driven transition system;
* the content-script api service's module state is a record threaded through
  the synchronous prefix of a call and through promise settlement.
-/

namespace NcExt

/-- JavaScript truthiness of an optional string field: missing (`none`) and
the empty string are falsy. -/
def jsTruthyStr : Option String → Bool
  | none => false
  | some s => s ≠ ""

/-- The JavaScript idiom `v || d` on an optional string field. -/
def jsOrStr (v : Option String) (d : String) : String :=
  match v with
  | none => d
  | some s => if s = "" then d else s

/-- The JavaScript idiom `v || d` on an optional integer field: a stored `0`
is falsy and falls back to the default. -/
def jsOrInt (v : Option Int) (d : Int) : Int :=
  match v with
  | none => d
  | some n => if n = 0 then d else n

/-! ## pastDueManager.js -/

def msPerHour : Int := 1000 * 60 * 60

def msPerDay : Int := 24 * msPerHour

/-- `date.setHours(0, 0, 0, 0)`: truncate a local-time timestamp to the most
recent local midnight. -/
def setHoursZero (t : Int) : Int := msPerDay * (t.fdiv msPerDay)

/-- `isPastDate` from pastDueManager.js: a missing date is never past due;
otherwise both the date and "now" are truncated to local midnight and
compared strictly. -/
def isPastDate (date : Option Int) (now : Int) : Bool :=
  match date with
  | none => false
  | some t => decide (setHoursZero t < setHoursZero now)

/-- `calculateDelayedHours` from pastDueManager.js: whole elapsed hours,
`Math.floor((now - assignDate) / 3600000)`; `0` for a missing date. -/
def calculateDelayedHours (assignDate : Option Int) (now : Int) : Int :=
  match assignDate with
  | none => 0
  | some t => (now - t).fdiv msPerHour

/-- `formatHours` from pastDueManager.js: at least 24 hours renders as whole
days (floor), otherwise as hours. -/
def formatHours (hours : Int) : String :=
  if hours ≥ 24 then toString (hours.fdiv 24) ++ " days"
  else toString hours ++ " hours"

/-! ## Check-interval configuration (background worker and popup) -/

def DEFAULT_CHECK_INTERVAL_HOURS : Int := 3
def MIN_CHECK_INTERVAL_HOURS : Int := 1
def MAX_CHECK_INTERVAL_HOURS : Int := 10

/-- The hours value computed by `getCheckIntervalMs` in the background
worker: `stored || 3`, then clamped by
`Math.max(MIN, Math.min(MAX, hours))`. -/
def getCheckIntervalHours (stored : Option Int) : Int :=
  max MIN_CHECK_INTERVAL_HOURS
    (min MAX_CHECK_INTERVAL_HOURS (jsOrInt stored DEFAULT_CHECK_INTERVAL_HOURS))

/-- `getCheckIntervalMs` from the background worker: the clamped hours value
converted to milliseconds. -/
def getCheckIntervalMs (stored : Option Int) : Int :=
  getCheckIntervalHours stored * (60 * 60 * 1000)

/-- The interval value the popup's `loadCheckInterval` echoes into the input
field: `stored || 3` clamped to `[MIN, MAX]`. -/
def popupLoadCheckInterval (stored : Option Int) : Int :=
  max MIN_CHECK_INTERVAL_HOURS
    (min MAX_CHECK_INTERVAL_HOURS (jsOrInt stored DEFAULT_CHECK_INTERVAL_HOURS))

/-- The value the popup's `saveCheckInterval` writes to storage, given the
result of `parseInt` on the input field (`none` models `NaN`). -/
def saveCheckInterval (parsed : Option Int) : Int :=
  match parsed with
  | none => MIN_CHECK_INTERVAL_HOURS
  | some v =>
      if v < MIN_CHECK_INTERVAL_HOURS then MIN_CHECK_INTERVAL_HOURS
      else if v > MAX_CHECK_INTERVAL_HOURS then MAX_CHECK_INTERVAL_HOURS
      else v

/-! ## Webhook items, portal scrape result, notifications -/

/-- One webhook response item, restricted to the two fields the classifier
reads; a `none` field models a missing JSON key. -/
structure WorkItem where
  doneBy : Option String
  articleNumber : Option String
deriving DecidableEq

/-- Result of `fetchPortalData`: the scraped article-ID set and the subset
whose Action cell mentions pending QA validation. -/
structure PortalData where
  portalArticleIds : Finset String
  pendingQAArticleIds : Finset String
deriving DecidableEq

/-- A desktop notification as created by `sendBackgroundNotification`. -/
structure Notification where
  title : String
  message : String
  tag : Option String
deriving DecidableEq

/-- The tag passed for a per-profile unuploaded-files notification:
the string built at line 259 of the background worker,
including the Date.now() timestamp of the emission. -/
def notificationTag (profile : String) (now : Nat) : String :=
  "unuploaded-" ++ profile ++ "-" ++ toString now

/-- The notification id chosen by `sendBackgroundNotification`: the tag when
one is supplied (and truthy), otherwise a fresh time-and-random id. -/
def notificationId (tag : Option String) (now : Nat) (rand : String) : String :=
  jsOrStr tag ("notification-" ++ toString now ++ "-" ++ rand)

/-! ## The unuploaded-files classifier (background worker) -/

/-- The body of the `apiData.forEach` loop in `checkProfileUnuploadedFiles`:
the contribution of one webhook item to the profile's not-uploaded list. -/
def classifyWorkItem (profile : String) (portalData : PortalData)
    (item : WorkItem) : Option String :=
  let doneBy := jsOrStr item.doneBy "-"
  let articleNumber := jsOrStr item.articleNumber ""
  if doneBy = profile then
    if articleNumber ≠ "" then
      if articleNumber ∈ portalData.portalArticleIds ∧
         articleNumber ∉ portalData.pendingQAArticleIds then
        some articleNumber
      else none
    else none
  else none

/-- The `profileArticleIds` list accumulated by `checkProfileUnuploadedFiles`
for one profile, in webhook order. -/
def profileUnuploadedIds (profile : String) (portalData : PortalData)
    (apiData : List WorkItem) : List String :=
  apiData.filterMap (classifyWorkItem profile portalData)

/-- `formatUnuploadedFilesMessage` from the background worker. -/
def formatUnuploadedFilesMessage (profile : String) (count : Nat)
    (articleIds : List String) (maxDisplay : Nat) : String :=
  let articleList := String.intercalate ", " (articleIds.take maxDisplay)
  let moreText :=
    if articleIds.length > maxDisplay then
      " and " ++ toString (articleIds.length - maxDisplay) ++ " more"
    else ""
  let fileText := if count = 1 then "file" else "files"
  profile ++ ": " ++ toString count ++ " " ++ fileText ++ " not uploaded: " ++
    articleList ++ moreText

/-- `formatAllProfilesCheckMessage` from the background worker. -/
def formatAllProfilesCheckMessage (hasUnuploaded : Bool) : String :=
  if hasUnuploaded then
    "All profiles checked - notifications sent for profiles with unuploaded files"
  else "All profiles checked - no unuploaded files found"

/-- `checkProfileUnuploadedFiles`: the notification emitted for one profile
(if any) and the boolean the function returns. `now` is the Date.now() value
at the notification call. -/
def checkProfileUnuploadedFiles (profile : String) (portalData : PortalData)
    (apiData : List WorkItem) (now : Nat) : Option Notification × Bool :=
  let profileArticleIds := profileUnuploadedIds profile portalData apiData
  if profileArticleIds.length > 0 then
    (some { title := "Unuploaded Files Reminder"
            message := formatUnuploadedFilesMessage profile
              profileArticleIds.length profileArticleIds 10
            tag := some (notificationTag profile now) },
     true)
  else (none, false)

/-! ## One tick of the periodic background check -/

/-- `fetchPortalData` catches every failure internally and returns empty
sets; a successful scrape returns the parsed sets. -/
def fetchPortalDataResult : Except Unit PortalData → PortalData
  | .ok d => d
  | .error _ => ⟨∅, ∅⟩

/-- `fetchApiData` catches every failure internally and returns an empty
array (a non-array JSON body also yields an empty array). -/
def fetchApiDataResult : Except Unit (List WorkItem) → List WorkItem
  | .ok d => d
  | .error _ => []

/-- The status notification sent when the API returned no data. -/
def noApiDataNotification : Notification :=
  ⟨"Check Complete", "No API data available", none⟩

/-- One run of `checkUnuploadedFiles` as a pure function of the stored
profile, the stored profiles list, the two fetch outcomes and the Date.now()
value: it returns the emitted notifications in order together with the
number of network fetches issued. -/
def checkUnuploadedFiles (selectedProfile : Option String)
    (profilesList : List String) (portalOutcome : Except Unit PortalData)
    (apiOutcome : Except Unit (List WorkItem)) (now : Nat) :
    List Notification × Nat :=
  if jsTruthyStr selectedProfile then
    let sp := selectedProfile.getD ""
    let profilesToCheck := if sp = "ALL" then profilesList else [sp]
    let portalData := fetchPortalDataResult portalOutcome
    let apiData := fetchApiDataResult apiOutcome
    if apiData.length = 0 then ([noApiDataNotification], 2)
    else
      let profileNotifs := profilesToCheck.filterMap
        (fun p => (checkProfileUnuploadedFiles p portalData apiData now).1)
      let hasAnyUnuploaded := profilesToCheck.any
        (fun p => (checkProfileUnuploadedFiles p portalData apiData now).2)
      let summary :=
        if sp = "ALL" then
          [⟨"Check Complete", formatAllProfilesCheckMessage hasAnyUnuploaded, none⟩]
        else []
      (profileNotifs ++ summary, 2)
  else ([], 0)

/-! ## The background worker's timer state machine -/

/-- Control state of the background service worker: the three stored
configuration values plus whether the interval timer is armed. -/
structure BgState where
  selectedProfile : Option String
  notificationsEnabled : Bool
  checkIntervalHours : Option Int
  timerArmed : Bool
deriving DecidableEq

/-- `startHourlyCheck`: reads the enabled flag; when disabled it stops the
timer, otherwise it (re)arms it. -/
def startHourlyCheck (s : BgState) : BgState :=
  if ¬ s.notificationsEnabled then { s with timerArmed := false }
  else { s with timerArmed := true }

/-- `stopHourlyCheck`: clears the interval timer. -/
def stopHourlyCheck (s : BgState) : BgState := { s with timerArmed := false }

/-- Events handled by the `chrome.storage.onChanged` listener, plus a timer
tick (which runs `checkUnuploadedFiles` and touches no control state). -/
inductive BgEvent where
  | setProfile (p : Option String)
  | setNotificationsEnabled (b : Bool)
  | setCheckInterval (n : Int)
  | tick
deriving DecidableEq

/-- The `chrome.storage.onChanged` listener: storage is updated first, then
the handler reacts to the new value. -/
def bgStep (s : BgState) : BgEvent → BgState
  | .setProfile p =>
      let s1 := { s with selectedProfile := p }
      if jsTruthyStr p then startHourlyCheck s1 else stopHourlyCheck s1
  | .setNotificationsEnabled b =>
      let s1 := { s with notificationsEnabled := b }
      if b then startHourlyCheck s1 else stopHourlyCheck s1
  | .setCheckInterval n =>
      let s1 := { s with checkIntervalHours := some n }
      if s1.notificationsEnabled ∧ s1.timerArmed then startHourlyCheck s1 else s1
  | .tick => s

/-- Fresh-install state: nothing stored, timer idle (the load-time handler
only arms when both a profile and the enabled flag are already stored). -/
def bgInit : BgState := ⟨none, false, none, false⟩

/-- The background worker's state after a sequence of storage events. -/
def bgRun (events : List BgEvent) : BgState := events.foldl bgStep bgInit

/-! ## Content-script api service (src/services/apiService.js) -/

/-- Module state of the api service. The article map is modelled by its
lookup function; `fetchPromise` holds the identity of the outstanding
promise, and `nextPromiseId` supplies fresh identities. -/
structure ApiState where
  articleDoneByMap : String → Option String
  apiResponseData : Option (List WorkItem)
  isFetching : Bool
  hasFetched : Bool
  fetchPromise : Option Nat
  nextPromiseId : Nat

/-- Module-load state of the api service. -/
def apiInit : ApiState :=
  { articleDoneByMap := fun _ => none
    apiResponseData := none
    isFetching := false
    hasFetched := false
    fetchPromise := none
    nextPromiseId := 0 }

/-- Outcome of the synchronous prefix of a `fetchDoneByData` call: the
promise handed back to the caller (`none` models returning undefined), the
state after the call, and whether a new network request was started. -/
structure CallResult where
  returned : Option Nat
  state : ApiState
  startedRequest : Bool

/-- The synchronous prefix of `fetchDoneByData`: skip when data is cached
and no refresh is forced; reuse the outstanding promise while a fetch is in
flight; otherwise set the guard, record a fresh promise and start the
request. -/
def fetchDoneByData (forceRefresh : Bool) (s : ApiState) : CallResult :=
  if s.hasFetched ∧ ¬ forceRefresh then ⟨none, s, false⟩
  else if s.isFetching ∧ s.fetchPromise.isSome then ⟨s.fetchPromise, s, false⟩
  else
    let pid := s.nextPromiseId
    ⟨some pid,
     { s with isFetching := true, fetchPromise := some pid,
              nextPromiseId := pid + 1 },
     true⟩

/-- `Map.set`: point update of the lookup function. -/
def mapSet (m : String → Option String) (k v : String) : String → Option String :=
  fun q => if q = k then some v else m q

/-- One iteration of the `data.forEach` loop rebuilding the article map: an
item contributes only when both its article number and done-by fields are
truthy. -/
def mapStep (m : String → Option String) (item : WorkItem) :
    String → Option String :=
  if jsTruthyStr item.articleNumber ∧ jsTruthyStr item.doneBy then
    mapSet m (item.articleNumber.getD "") (item.doneBy.getD "")
  else m

/-- The article map rebuilt from a response: `articleDoneByMap.clear()`
followed by the `forEach` population loop. -/
def buildArticleMap (data : List WorkItem) : String → Option String :=
  data.foldl mapStep (fun _ => none)

/-- Whether an item feeds the entry at key `k` of the rebuilt map. -/
def contributesEntry (k : String) (item : WorkItem) : Prop :=
  jsTruthyStr item.articleNumber ∧ jsTruthyStr item.doneBy ∧
    item.articleNumber.getD "" = k

instance (k : String) (item : WorkItem) : Decidable (contributesEntry k item) := by
  unfold contributesEntry; infer_instance

/-- Settlement of the promise created by `fetchDoneByData`: the try block
stores the data, rebuilds the map and sets `hasFetched`; the catch block
resets `hasFetched`; the finally block clears the guard and the promise. -/
def settleFetch (outcome : Except Unit (List WorkItem)) (s : ApiState) : ApiState :=
  match outcome with
  | .ok data =>
      { s with apiResponseData := some data
               articleDoneByMap := buildArticleMap data
               hasFetched := true
               isFetching := false
               fetchPromise := none }
  | .error _ =>
      { s with hasFetched := false
               isFetching := false
               fetchPromise := none }

/-! ## TEX-row reordering (tableManager and utils) -/

/-- A table row, reduced to the trimmed-at-scrape-time text of its cells. -/
abbrev TableRow := List String

/-- JavaScript `trim()`: strip leading and trailing whitespace. -/
def jsTrim (s : String) : String :=
  String.mk
    (((s.data.dropWhile Char.isWhitespace).reverse.dropWhile
        Char.isWhitespace).reverse)

/-- JavaScript `toUpperCase()` on the ASCII cell text. -/
def jsToUpper (s : String) : String := String.mk (s.data.map Char.toUpper)

/-- `isTexRow`: a row is a TEX row when it has a cell at the SRC column index
and that cell's text, trimmed and upper-cased, is "TEX". -/
def isTexRow (row : TableRow) (srcColumnIndex : Nat) : Bool :=
  match row.get? srcColumnIndex with
  | none => false
  | some cell => jsToUpper (jsTrim cell) = "TEX"

/-- `splitRowsBySrc`: single pass splitting the rows into the TEX rows and
the non-TEX rows, each in original order. -/
def splitRowsBySrc (rows : List TableRow) (idx : Nat) :
    List TableRow × List TableRow :=
  match rows with
  | [] => ([], [])
  | r :: rs =>
      let rest := splitRowsBySrc rs idx
      if isTexRow r idx then (r :: rest.1, rest.2) else (rest.1, r :: rest.2)

/-- The loop of `areTexRowsAtBottom`, carrying the `foundTex` flag. -/
def texAtBottomAux (idx : Nat) (foundTex : Bool) : List TableRow → Bool
  | [] => true
  | r :: rs =>
      if isTexRow r idx then texAtBottomAux idx true rs
      else if foundTex then false
      else texAtBottomAux idx foundTex rs

/-- `areTexRowsAtBottom`: true when no non-TEX row appears after a TEX row. -/
def areTexRowsAtBottom (rows : List TableRow) (idx : Nat) : Bool :=
  texAtBottomAux idx false rows

/-- `moveTexRowsToBottom`, as the reordering it applies to the tbody row
list: early return on an empty list or when the order is already correct or
when there are no TEX rows; otherwise the non-TEX rows followed by the TEX
rows. -/
def moveTexRowsToBottom (rows : List TableRow) (idx : Nat) : List TableRow :=
  if rows.length = 0 then rows
  else if areTexRowsAtBottom rows idx then rows
  else if (splitRowsBySrc rows idx).1.length = 0 then rows
  else (splitRowsBySrc rows idx).2 ++ (splitRowsBySrc rows idx).1

end NcExt

namespace NcExt

/-! ## The classifier characterization (C1) -/

lemma classifyWorkItem_eq_some {profile : String} {P : PortalData}
    {item : WorkItem} {x : String} :
    classifyWorkItem profile P item = some x ↔
      jsOrStr item.doneBy "-" = profile ∧ jsOrStr item.articleNumber "" = x ∧
      x ≠ "" ∧ x ∈ P.portalArticleIds ∧ x ∉ P.pendingQAArticleIds := by
  unfold classifyWorkItem
  dsimp only
  split_ifs with h1 h2 h3
  · constructor
    · rintro h
      obtain rfl : jsOrStr item.articleNumber "" = x := by
        simpa using h
      exact ⟨h1, rfl, h2, h3.1, h3.2⟩
    · rintro ⟨-, rfl, -, -, -⟩
      rfl
  · simp only [false_iff]
    rintro ⟨-, rfl, -, hmem, hqa⟩
    exact h3 ⟨hmem, hqa⟩
  · simp only [false_iff]
    rintro ⟨-, rfl, hne, -, -⟩
    exact hne (by simpa using h2)
  · simp only [false_iff]
    rintro ⟨hdone, -, -, -, -⟩
    exact h1 hdone

/-- C1: the classifier's not-uploaded result for a profile consists exactly
of the article ids of webhook items attributed to that profile that are in
the portal set and not in the QA-pending set; it is empty for an empty
webhook list and for an empty portal set, it is order-independent as a
multiset, and an item whose article-id field is missing or empty is skipped
without affecting the result. -/
theorem classifier_exact_set_order_independent
    (profile : String) (P : PortalData) (W : List WorkItem) :
    (∀ x, x ∈ profileUnuploadedIds profile P W ↔
      ∃ item ∈ W, jsOrStr item.doneBy "-" = profile ∧
        jsOrStr item.articleNumber "" = x ∧ x ≠ "" ∧
        x ∈ P.portalArticleIds ∧ x ∉ P.pendingQAArticleIds) ∧
    (profileUnuploadedIds profile P [] = []) ∧
    (P.portalArticleIds = ∅ → profileUnuploadedIds profile P W = []) ∧
    (∀ W2, W.Perm W2 →
      (profileUnuploadedIds profile P W).Perm (profileUnuploadedIds profile P W2)) ∧
    (∀ item, jsOrStr item.articleNumber "" = "" →
      profileUnuploadedIds profile P (item :: W) =
        profileUnuploadedIds profile P W) := by
  refine ⟨fun x => ?_, rfl, fun hP => ?_, fun W2 h => h.filterMap _, fun item h => ?_⟩
  · simp only [profileUnuploadedIds, List.mem_filterMap]
    constructor
    · rintro ⟨item, hitem, hcl⟩
      exact ⟨item, hitem, classifyWorkItem_eq_some.mp hcl⟩
    · rintro ⟨item, hitem, hcond⟩
      exact ⟨item, hitem, classifyWorkItem_eq_some.mpr hcond⟩
  · rw [profileUnuploadedIds, List.filterMap_eq_nil_iff]
    intro item hitem
    cases hcl : classifyWorkItem profile P item with
    | none => rfl
    | some x =>
        exfalso
        have := (classifyWorkItem_eq_some.mp hcl).2.2.2.1
        rw [hP] at this
        exact absurd this (Finset.not_mem_empty x)
  · have hnone : classifyWorkItem profile P item = none := by
      unfold classifyWorkItem
      rw [h]
      simp
    simp [profileUnuploadedIds, hnone]

/-- Witness for C1 at concrete inputs. -/
theorem classifier_exact_set_order_independent_witness :
    ("A1" ∈ profileUnuploadedIds "X" ⟨{"A1"}, ∅⟩ [⟨some "X", some "A1"⟩] ↔
      ∃ item ∈ [WorkItem.mk (some "X") (some "A1")],
        jsOrStr item.doneBy "-" = "X" ∧ jsOrStr item.articleNumber "" = "A1" ∧
        "A1" ≠ "" ∧ "A1" ∈ ({"A1"} : Finset String) ∧
        "A1" ∉ (∅ : Finset String)) ∧
    profileUnuploadedIds "X" ⟨∅, ∅⟩ [⟨some "X", some "A1"⟩] = [] ∧
    (profileUnuploadedIds "X" ⟨{"A1"}, ∅⟩ [⟨some "X", some "A1"⟩]).Perm
      (profileUnuploadedIds "X" ⟨{"A1"}, ∅⟩ [⟨some "X", some "A1"⟩]) ∧
    profileUnuploadedIds "X" ⟨{"A1"}, ∅⟩
      (⟨some "X", some ""⟩ :: [⟨some "X", some "A1"⟩]) =
      profileUnuploadedIds "X" ⟨{"A1"}, ∅⟩ [⟨some "X", some "A1"⟩] :=
  ⟨(classifier_exact_set_order_independent "X" ⟨{"A1"}, ∅⟩
      [⟨some "X", some "A1"⟩]).1 "A1",
   (classifier_exact_set_order_independent "X" ⟨∅, ∅⟩
      [⟨some "X", some "A1"⟩]).2.2.1 rfl,
   (classifier_exact_set_order_independent "X" ⟨{"A1"}, ∅⟩
      [⟨some "X", some "A1"⟩]).2.2.2.1 _ (List.Perm.refl _),
   (classifier_exact_set_order_independent "X" ⟨{"A1"}, ∅⟩
      [⟨some "X", some "A1"⟩]).2.2.2.2 ⟨some "X", some ""⟩ rfl⟩

/-! ## Theorems for the delay calculator and past-due predicate -/

/-- C6: the delay calculator returns `floor((now - assignDate) / 1 hour)`;
the display renders `h ≥ 24` as `floor(h / 24)` whole days (dropping the
remainder hours) and `h < 24` as `h` hours; for an assignment exactly 24
hours before now the display is "1 days". -/
theorem delay_calculator_floors_and_buckets_to_days :
    (∀ assign now : Int,
      calculateDelayedHours (some assign) now = (now - assign).fdiv msPerHour) ∧
    (∀ h : Int, h ≥ 24 → formatHours h = toString (h.fdiv 24) ++ " days") ∧
    (∀ h : Int, h < 24 → formatHours h = toString h ++ " hours") ∧
    (∀ assign : Int,
      formatHours (calculateDelayedHours (some assign) (assign + 24 * msPerHour))
        = "1 days") := by
  refine ⟨fun assign now => rfl, fun h hge => by simp [formatHours, hge], fun h hlt => ?_, fun assign => ?_⟩
  · have : ¬ h ≥ 24 := by omega
    simp [formatHours, this]
  · have h1 : calculateDelayedHours (some assign) (assign + 24 * msPerHour) = 24 := by
      show (assign + 24 * msPerHour - assign).fdiv msPerHour = 24
      have : assign + 24 * msPerHour - assign = 24 * msPerHour := by ring
      rw [this]
      norm_num [msPerHour, Int.fdiv]
    rw [h1]
    rfl

/-- Witness for C6 at concrete inputs. -/
theorem delay_calculator_floors_and_buckets_to_days_witness :
    formatHours 36 = "1 days" ∧ formatHours 5 = "5 hours" ∧
    formatHours (calculateDelayedHours (some 0) (24 * msPerHour)) = "1 days" :=
  ⟨delay_calculator_floors_and_buckets_to_days.2.1 36 (by decide),
   delay_calculator_floors_and_buckets_to_days.2.2.1 5 (by decide),
   delay_calculator_floors_and_buckets_to_days.2.2.2 0⟩

/-- C7: the past-due predicate holds iff the date truncated to local midnight
is strictly before today's local midnight, equivalently iff its local day
index is strictly smaller; a date on the current day is never past due, and a
missing date is never past due. -/
theorem isPastDate_iff_day_strictly_before :
    (∀ now : Int, isPastDate none now = false) ∧
    (∀ t now : Int,
      isPastDate (some t) now = true ↔ t.fdiv msPerDay < now.fdiv msPerDay) ∧
    (∀ t now : Int, t.fdiv msPerDay = now.fdiv msPerDay →
      isPastDate (some t) now = false) := by
  have key : ∀ t now : Int,
      isPastDate (some t) now = true ↔ t.fdiv msPerDay < now.fdiv msPerDay := by
    intro t now
    have hpos : (0 : Int) < msPerDay := by decide
    simp only [isPastDate, setHoursZero, decide_eq_true_eq]
    exact mul_lt_mul_left hpos
  refine ⟨fun now => rfl, key, fun t now h => ?_⟩
  have := (key t now).not
  rw [Bool.eq_false_iff]
  intro hcontra
  exact absurd ((key t now).mp hcontra) (by omega)

/-- Witness for C7 at concrete inputs. -/
theorem isPastDate_iff_day_strictly_before_witness :
    (isPastDate (some 1000) (msPerDay + 5) = true ↔
      (1000 : Int).fdiv msPerDay < (msPerDay + 5).fdiv msPerDay) ∧
    isPastDate (some 1000) 2000 = false :=
  ⟨isPastDate_iff_day_strictly_before.2.1 1000 (msPerDay + 5),
   isPastDate_iff_day_strictly_before.2.2 1000 2000 (by decide)⟩

/-! ## Notification tags (C2) -/

/-- C2 counterexample: the per-profile notification tag built by the
background worker incorporates the Date.now() timestamp, so the same profile
gets different tags on different ticks. -/
theorem same_profile_different_tick_tags_differ :
    notificationTag "Anuradha" 0 ≠ notificationTag "Anuradha" 1 := by decide

/-- C2 amended: when a (truthy) tag is supplied, the notification id is
exactly that tag; but the tag built for a per-profile unuploaded-files
notification also incorporates the Date.now() timestamp of the emission, so
for one profile, ticks whose timestamps render differently carry different
tags and the notifications stack in separate slots rather than replace. -/
theorem notification_tag_incorporates_timestamp :
    (∀ (t : String) (now : Nat) (rand : String), t ≠ "" →
      notificationId (some t) now rand = t) ∧
    (∀ (profile : String) (t1 t2 : Nat), toString t1 ≠ toString t2 →
      notificationTag profile t1 ≠ notificationTag profile t2) := by
  constructor
  · intro t now rand ht
    simp [notificationId, jsOrStr, ht]
  · intro profile t1 t2 hne heq
    apply hne
    have hd := congrArg String.data heq
    simp only [notificationTag, String.data_append] at hd
    exact String.ext (List.append_cancel_left hd)

/-- Witness for C2 amended at concrete inputs. -/
theorem notification_tag_incorporates_timestamp_witness :
    notificationId (some "tag-a") 7 "r" = "tag-a" ∧
    notificationTag "Ruchi" 10 ≠ notificationTag "Ruchi" 11 :=
  ⟨notification_tag_incorporates_timestamp.1 "tag-a" 7 "r" (by decide),
   notification_tag_incorporates_timestamp.2 "Ruchi" 10 11 (by decide)⟩

/-! ## Failed-fetch ticks (C3) -/

/-- C3 counterexample: on a tick whose API fetch fails, the code does emit a
notification (the "No API data available" status), contradicting the claim
that a failed-fetch tick emits no notifications. -/
theorem api_failure_tick_emits_a_notification :
    (checkUnuploadedFiles (some "Ankur") [] (Except.ok ⟨∅, ∅⟩)
        (Except.error ()) 0).1 ≠ [] := by decide

/-- C3 amended: a tick whose API fetch fails emits exactly the single
"No API data available" status notification and no unuploaded-files
notification; the tick never touches the interval timer, so it stays armed,
and the next tick is an independent fresh attempt (the tick is a pure
function of that tick's own inputs, with no backoff or retry state). -/
theorem api_failure_tick_aborts_notifications_keeps_timer :
    (∀ (sp : Option String) (profiles : List String)
        (portalOutcome : Except Unit PortalData) (now : Nat),
      jsTruthyStr sp = true →
        (checkUnuploadedFiles sp profiles portalOutcome (Except.error ()) now).1 =
          [noApiDataNotification] ∧
        ∀ n ∈ (checkUnuploadedFiles sp profiles portalOutcome
            (Except.error ()) now).1, n.title ≠ "Unuploaded Files Reminder") ∧
    (∀ s : BgState, bgStep s BgEvent.tick = s) := by
  constructor
  · intro sp profiles portalOutcome now hsp
    have h : checkUnuploadedFiles sp profiles portalOutcome (Except.error ()) now =
        ([noApiDataNotification], 2) := by
      unfold checkUnuploadedFiles
      rw [if_pos hsp]
      rfl
    refine ⟨by rw [h], ?_⟩
    rw [h]
    intro n hn
    rw [List.mem_singleton] at hn
    subst hn
    decide
  · intro s
    rfl

/-- Witness for C3 amended at concrete inputs. -/
theorem api_failure_tick_aborts_notifications_keeps_timer_witness :
    (checkUnuploadedFiles (some "Ankur") [] (Except.ok ⟨∅, ∅⟩)
        (Except.error ()) 0).1 = [noApiDataNotification] :=
  (api_failure_tick_aborts_notifications_keeps_timer.1 (some "Ankur") []
    (Except.ok ⟨∅, ∅⟩) 0 (by decide)).1

/-! ## The timer state machine (C4) -/

lemma bgStep_preserves_armed_imp_enabled (s : BgState) (e : BgEvent)
    (h : s.timerArmed = true → s.notificationsEnabled = true) :
    (bgStep s e).timerArmed = true → (bgStep s e).notificationsEnabled = true := by
  cases e with
  | setProfile p =>
      by_cases hp : jsTruthyStr p
      · simp only [bgStep, hp, if_true, startHourlyCheck]
        by_cases hen : s.notificationsEnabled <;> simp [hen]
      · simp only [bgStep, hp, if_false, stopHourlyCheck]
        intro hcontra
        exact absurd hcontra (by simp)
  | setNotificationsEnabled b =>
      cases b with
      | true => simp [bgStep, startHourlyCheck]
      | false =>
          simp only [bgStep, stopHourlyCheck]
          intro hcontra
          exact absurd hcontra (by simp)
  | setCheckInterval n =>
      by_cases hc : s.notificationsEnabled ∧ s.timerArmed
      · simp only [bgStep, hc, if_true, startHourlyCheck]
        by_cases hen : s.notificationsEnabled
        · simp [hen]
        · exact absurd hc.1 hen
      · simp only [bgStep, hc, if_false]
        exact h
  | tick => exact h

/-- C4 counterexample: enabling notifications with no profile stored arms the
interval timer, so the claimed invariant "armed only if a profile is
selected" fails in a reachable state. -/
theorem timer_armed_without_profile :
    (bgRun [BgEvent.setNotificationsEnabled true]).timerArmed = true ∧
    (bgRun [BgEvent.setNotificationsEnabled true]).selectedProfile = none := by
  constructor <;> rfl

/-- C4 amended: disabling notifications or clearing the profile always
disarms the timer; enabling notifications arms it regardless of whether a
profile is selected; selecting a profile arms it exactly when notifications
are enabled; consequently in every reachable state the timer is armed only
if notifications are enabled (but possibly with no profile selected). -/
theorem bg_timer_armed_only_if_enabled :
    (∀ s : BgState,
      (bgStep s (BgEvent.setNotificationsEnabled false)).timerArmed = false) ∧
    (∀ (s : BgState) (p : Option String), jsTruthyStr p = false →
      (bgStep s (BgEvent.setProfile p)).timerArmed = false) ∧
    (∀ s : BgState,
      (bgStep s (BgEvent.setNotificationsEnabled true)).timerArmed = true) ∧
    (∀ (s : BgState) (p : Option String), jsTruthyStr p = true →
      (bgStep s (BgEvent.setProfile p)).timerArmed = s.notificationsEnabled) ∧
    (∀ events : List BgEvent,
      (bgRun events).timerArmed = true → (bgRun events).notificationsEnabled = true) := by
  refine ⟨fun s => rfl, fun s p hp => ?_, fun s => rfl, fun s p hp => ?_, ?_⟩
  · simp [bgStep, hp, stopHourlyCheck]
  · simp only [bgStep, hp, if_true, startHourlyCheck]
    by_cases hen : s.notificationsEnabled <;> simp [hen]
  · intro events
    suffices h : ∀ (l : List BgEvent) (s : BgState),
        (s.timerArmed = true → s.notificationsEnabled = true) →
        ((l.foldl bgStep s).timerArmed = true →
          (l.foldl bgStep s).notificationsEnabled = true) by
      exact h events bgInit (fun hcontra => absurd hcontra (by decide))
    intro l
    induction l with
    | nil => intro s hs; exact hs
    | cons e rest ih =>
        intro s hs
        exact ih (bgStep s e) (bgStep_preserves_armed_imp_enabled s e hs)

/-- Witness for C4 amended at concrete inputs. -/
theorem bg_timer_armed_only_if_enabled_witness :
    (bgStep bgInit (BgEvent.setProfile none)).timerArmed = false ∧
    (bgStep bgInit (BgEvent.setProfile (some "Ruchi"))).timerArmed =
      bgInit.notificationsEnabled ∧
    ((bgRun [BgEvent.setNotificationsEnabled true]).timerArmed = true →
      (bgRun [BgEvent.setNotificationsEnabled true]).notificationsEnabled = true) :=
  ⟨bg_timer_armed_only_if_enabled.2.1 bgInit none (by decide),
   bg_timer_armed_only_if_enabled.2.2.2.1 bgInit (some "Ruchi") (by decide),
   bg_timer_armed_only_if_enabled.2.2.2.2 [BgEvent.setNotificationsEnabled true]⟩

/-! ## Fetch sharing (C5) -/

/-- C5 counterexample: the background periodic check has no in-flight guard;
each invocation with a selected profile issues its own portal-and-API fetch
pair, so two invocations in immediate succession issue four underlying
fetches (two pairs), not one pair. -/
theorem double_check_invocation_issues_two_fetch_pairs :
    (checkUnuploadedFiles (some "Ankur") [] (Except.ok ⟨∅, ∅⟩)
        (Except.ok [⟨some "X", some "A1"⟩]) 0).2 +
      (checkUnuploadedFiles (some "Ankur") [] (Except.ok ⟨∅, ∅⟩)
        (Except.ok [⟨some "X", some "A1"⟩]) 0).2 = 4 ∧
    (checkUnuploadedFiles (some "Ankur") [] (Except.ok ⟨∅, ∅⟩)
        (Except.ok [⟨some "X", some "A1"⟩]) 0).2 +
      (checkUnuploadedFiles (some "Ankur") [] (Except.ok ⟨∅, ∅⟩)
        (Except.ok [⟨some "X", some "A1"⟩]) 0).2 ≠ 2 := by
  constructor <;> decide

/-- C5 amended: the in-flight guard lives in the content-script api service:
a `fetchDoneByData` call that observes the guard set (with no cached data)
gets the same outstanding promise back, starts no second request and leaves
the state unchanged, and two back-to-back calls from the initial state start
exactly one request; the background periodic check does not go through this
guard — every invocation with a truthy selected profile issues its own two
underlying fetches. -/
theorem fetch_guard_shares_promise_background_unguarded :
    (∀ (s : ApiState) (force : Bool) (p : Nat),
      s.isFetching = true → s.fetchPromise = some p → s.hasFetched = false →
      fetchDoneByData force s = ⟨some p, s, false⟩) ∧
    ((fetchDoneByData false apiInit).startedRequest = true ∧
      (fetchDoneByData false ((fetchDoneByData false apiInit).state)).startedRequest
        = false ∧
      (fetchDoneByData false ((fetchDoneByData false apiInit).state)).returned =
        (fetchDoneByData false apiInit).returned) ∧
    (∀ (sp : Option String) (profiles : List String)
        (portalOutcome : Except Unit PortalData)
        (apiOutcome : Except Unit (List WorkItem)) (now : Nat),
      jsTruthyStr sp = true →
      (checkUnuploadedFiles sp profiles portalOutcome apiOutcome now).2 = 2) := by
  refine ⟨fun s force p hf hp hh => ?_, ⟨rfl, rfl, rfl⟩, fun sp profiles po ao now hsp => ?_⟩
  · unfold fetchDoneByData
    rw [if_neg (by simp [hh]), if_pos (by simp [hf, hp])]
    simp [hp]
  · unfold checkUnuploadedFiles
    rw [if_pos hsp]
    dsimp only
    split <;> rfl

/-- Witness for C5 amended at concrete inputs. -/
theorem fetch_guard_shares_promise_background_unguarded_witness :
    fetchDoneByData true
        { apiInit with isFetching := true, fetchPromise := some 0 } =
      ⟨some 0, { apiInit with isFetching := true, fetchPromise := some 0 }, false⟩ ∧
    (checkUnuploadedFiles (some "ALL") ["Ruchi"] (Except.ok ⟨∅, ∅⟩)
        (Except.ok [⟨some "Ruchi", some "A1"⟩]) 0).2 = 2 :=
  ⟨fetch_guard_shares_promise_background_unguarded.1
      { apiInit with isFetching := true, fetchPromise := some 0 } true 0 rfl rfl rfl,
   fetch_guard_shares_promise_background_unguarded.2.2 (some "ALL") ["Ruchi"]
      (Except.ok ⟨∅, ∅⟩) (Except.ok [⟨some "Ruchi", some "A1"⟩]) 0 (by decide)⟩

/-! ## Theorems for the check-interval configuration (C8) -/

/-- C8 counterexample: a stored interval of 0 is falsy in JavaScript, so the
effective interval is the default 3 hours, not the claimed clamp to 1. -/
theorem stored_zero_interval_defaults_to_three_not_one :
    getCheckIntervalHours (some 0) = 3 ∧ getCheckIntervalHours (some 0) ≠ 1 := by
  constructor <;> decide

/-- C8 amended: a missing stored value and a stored 0 (falsy) both yield the
default 3 hours; any other stored integer is clamped to [1, 10] (below 1
clamps to 1, above 10 clamps to 10); the scheduler interval is that hours
value in milliseconds, the popup echoes the same hours value, and the popup
save path only ever stores integers in [1, 10]. -/
theorem check_interval_clamped_with_falsy_default :
    (getCheckIntervalHours none = 3) ∧
    (getCheckIntervalHours (some 0) = 3) ∧
    (∀ v : Int, v ≠ 0 →
      getCheckIntervalHours (some v) = max 1 (min 10 v)) ∧
    (∀ stored : Option Int,
      1 ≤ getCheckIntervalHours stored ∧ getCheckIntervalHours stored ≤ 10) ∧
    (∀ stored : Option Int,
      getCheckIntervalMs stored = getCheckIntervalHours stored * 3600000) ∧
    (∀ stored : Option Int,
      popupLoadCheckInterval stored = getCheckIntervalHours stored) ∧
    (∀ parsed : Option Int,
      1 ≤ saveCheckInterval parsed ∧ saveCheckInterval parsed ≤ 10) := by
  refine ⟨by decide, by decide, fun v hv => ?_, fun stored => ?_, fun stored => ?_,
    fun stored => rfl, fun parsed => ?_⟩
  · simp [getCheckIntervalHours, jsOrInt, hv, MIN_CHECK_INTERVAL_HOURS,
      MAX_CHECK_INTERVAL_HOURS]
  · cases stored with
    | none => exact ⟨by decide, by decide⟩
    | some v =>
        simp only [getCheckIntervalHours, jsOrInt, MIN_CHECK_INTERVAL_HOURS,
          MAX_CHECK_INTERVAL_HOURS, DEFAULT_CHECK_INTERVAL_HOURS]
        by_cases hv : v = 0
        · simp [hv]
        · simp only [hv, if_false]
          omega
  · rfl
  · cases parsed with
    | none => exact ⟨by decide, by decide⟩
    | some v =>
        simp only [saveCheckInterval, MIN_CHECK_INTERVAL_HOURS,
          MAX_CHECK_INTERVAL_HOURS]
        split <;> [skip; split] <;> omega

/-! ## TEX-row reordering (C9) -/

lemma splitRowsBySrc_eq_filters (rows : List TableRow) (idx : Nat) :
    splitRowsBySrc rows idx =
      (rows.filter (fun r => isTexRow r idx),
       rows.filter (fun r => !(isTexRow r idx))) := by
  induction rows with
  | nil => rfl
  | cons r rs ih =>
      by_cases h : isTexRow r idx
      · simp [splitRowsBySrc, ih, List.filter_cons, h]
      · simp [splitRowsBySrc, ih, List.filter_cons, h]

lemma texAtBottomAux_all_tex (idx : Nat) (l : List TableRow)
    (h : ∀ r ∈ l, isTexRow r idx = true) :
    ∀ b : Bool, texAtBottomAux idx b l = true := by
  induction l with
  | nil => intro b; rfl
  | cons r rs ih =>
      intro b
      have hr := h r (List.mem_cons_self r rs)
      simp only [texAtBottomAux, hr, if_true]
      exact ih (fun q hq => h q (List.mem_cons_of_mem r hq)) true

lemma texAtBottomAux_true_all (idx : Nat) (l : List TableRow) :
    texAtBottomAux idx true l = true → ∀ r ∈ l, isTexRow r idx = true := by
  induction l with
  | nil => intro _ r hr; exact absurd hr (List.not_mem_nil r)
  | cons r rs ih =>
      intro h q hq
      by_cases hr : isTexRow r idx
      · simp only [texAtBottomAux, hr, if_true] at h
        rcases List.mem_cons.mp hq with rfl | hq2
        · exact hr
        · exact ih h q hq2
      · exfalso
        simp [texAtBottomAux, hr] at h

lemma texAtBottomAux_skip_nonTex (idx : Nat) (non l : List TableRow)
    (hnon : ∀ r ∈ non, isTexRow r idx = false) :
    texAtBottomAux idx false (non ++ l) = texAtBottomAux idx false l := by
  induction non with
  | nil => rfl
  | cons r rs ih =>
      have hr := hnon r (List.mem_cons_self r rs)
      simp only [List.cons_append, texAtBottomAux, hr]
      exact ih (fun q hq => hnon q (List.mem_cons_of_mem r hq))

lemma areTexRowsAtBottom_of_partition (idx : Nat) (non tex : List TableRow)
    (hnon : ∀ r ∈ non, isTexRow r idx = false)
    (htex : ∀ r ∈ tex, isTexRow r idx = true) :
    areTexRowsAtBottom (non ++ tex) idx = true := by
  unfold areTexRowsAtBottom
  rw [texAtBottomAux_skip_nonTex idx non tex hnon]
  cases tex with
  | nil => rfl
  | cons t ts =>
      have ht := htex t (List.mem_cons_self t ts)
      simp only [texAtBottomAux, ht, if_true]
      exact texAtBottomAux_all_tex idx ts
        (fun q hq => htex q (List.mem_cons_of_mem t hq)) true

lemma areTexRowsAtBottom_eq_partition (rows : List TableRow) (idx : Nat)
    (h : areTexRowsAtBottom rows idx = true) :
    rows = rows.filter (fun r => !(isTexRow r idx)) ++
      rows.filter (fun r => isTexRow r idx) := by
  induction rows with
  | nil => rfl
  | cons r rs ih =>
      by_cases hr : isTexRow r idx
      · have h' : texAtBottomAux idx true rs = true := by
          simpa [areTexRowsAtBottom, texAtBottomAux, hr] using h
        have hall := texAtBottomAux_true_all idx rs h'
        have h1 : (r :: rs).filter (fun r => !(isTexRow r idx)) = [] := by
          rw [List.filter_eq_nil_iff]
          intro q hq
          rcases List.mem_cons.mp hq with rfl | hq2
          · simp [hr]
          · simp [hall q hq2]
        have h2 : (r :: rs).filter (fun r => isTexRow r idx) = r :: rs := by
          rw [List.filter_eq_self]
          intro q hq
          rcases List.mem_cons.mp hq with rfl | hq2
          · simp [hr]
          · simp [hall q hq2]
        rw [h1, h2, List.nil_append]
      · have h' : areTexRowsAtBottom rs idx = true := by
          simpa [areTexRowsAtBottom, texAtBottomAux, hr] using h
        have := ih h'
        calc r :: rs
            = r :: (rs.filter (fun r => !(isTexRow r idx)) ++
                rs.filter (fun r => isTexRow r idx)) := by rw [← this]
          _ = (r :: rs).filter (fun r => !(isTexRow r idx)) ++
                (r :: rs).filter (fun r => isTexRow r idx) := by
              simp [List.filter_cons, hr]

lemma moveTexRowsToBottom_eq_partition (rows : List TableRow) (idx : Nat) :
    moveTexRowsToBottom rows idx =
      rows.filter (fun r => !(isTexRow r idx)) ++
        rows.filter (fun r => isTexRow r idx) := by
  unfold moveTexRowsToBottom
  split_ifs with h0 h1 h2
  · rw [List.length_eq_zero] at h0
    subst h0
    rfl
  · exact areTexRowsAtBottom_eq_partition rows idx h1
  · exfalso
    rw [splitRowsBySrc_eq_filters] at h2
    rw [List.length_eq_zero] at h2
    have hall : ∀ r ∈ rows, isTexRow r idx = false := by
      have := List.filter_eq_nil_iff.mp h2
      intro q hq
      simpa using this q hq
    have : areTexRowsAtBottom rows idx = true := by
      have := areTexRowsAtBottom_of_partition idx rows [] hall
        (fun q hq => absurd hq (List.not_mem_nil q))
      simpa using this
    exact h1 this
  · rw [splitRowsBySrc_eq_filters]

/-- C9: the reordering yields exactly the stable partition with all non-TEX
rows first and all TEX rows after (relative order preserved within each
group), keeps the multiset of rows unchanged, performs no mutation when the
rows already satisfy the order, and is idempotent. -/
theorem moveTexRows_stable_partition_idempotent (rows : List TableRow) (idx : Nat) :
    (moveTexRowsToBottom rows idx =
      rows.filter (fun r => !(isTexRow r idx)) ++
        rows.filter (fun r => isTexRow r idx)) ∧
    (∃ a b, moveTexRowsToBottom rows idx = a ++ b ∧
      (∀ r ∈ a, isTexRow r idx = false) ∧ (∀ r ∈ b, isTexRow r idx = true)) ∧
    (moveTexRowsToBottom rows idx).Perm rows ∧
    (areTexRowsAtBottom rows idx = true → moveTexRowsToBottom rows idx = rows) ∧
    moveTexRowsToBottom (moveTexRowsToBottom rows idx) idx =
      moveTexRowsToBottom rows idx := by
  have hpart := moveTexRowsToBottom_eq_partition rows idx
  have hnon : ∀ r ∈ rows.filter (fun r => !(isTexRow r idx)),
      isTexRow r idx = false := by
    intro r hr
    have := (List.mem_filter.mp hr).2
    simpa using this
  have htex : ∀ r ∈ rows.filter (fun r => isTexRow r idx),
      isTexRow r idx = true := fun r hr => (List.mem_filter.mp hr).2
  have hbottom : areTexRowsAtBottom (moveTexRowsToBottom rows idx) idx = true := by
    rw [hpart]
    exact areTexRowsAtBottom_of_partition idx _ _ hnon htex
  have hnomut : ∀ l : List TableRow, areTexRowsAtBottom l idx = true →
      moveTexRowsToBottom l idx = l := by
    intro l hl
    unfold moveTexRowsToBottom
    split_ifs with a
    · rfl
    · rfl
  refine ⟨hpart, ⟨_, _, hpart, hnon, htex⟩, ?_, hnomut rows, hnomut _ hbottom⟩
  rw [hpart]
  have hperm := List.filter_append_perm (fun r => !(isTexRow r idx)) rows
  have hcongr : rows.filter (fun r => !(!(isTexRow r idx))) =
      rows.filter (fun r => isTexRow r idx) :=
    List.filter_congr (fun r _ => by simp)
  rw [hcongr] at hperm
  exact hperm

/-- Witness for C9 at a concrete input (the no-mutation conjunct has a
hypothesis). -/
theorem moveTexRows_stable_partition_idempotent_witness :
    moveTexRowsToBottom [["a", "DOCX"], ["b", "TEX"]] 1 = [["a", "DOCX"], ["b", "TEX"]] :=
  (moveTexRows_stable_partition_idempotent [["a", "DOCX"], ["b", "TEX"]] 1).2.2.2.1
    (by decide)

/-! ## Api-service settlement (C10) -/

lemma mapStep_apply (m : String → Option String) (item : WorkItem) (k : String) :
    mapStep m item k =
      if contributesEntry k item then some (item.doneBy.getD "") else m k := by
  unfold mapStep mapSet contributesEntry
  by_cases h1 : jsTruthyStr item.articleNumber ∧ jsTruthyStr item.doneBy
  · rw [if_pos h1]
    by_cases h2 : item.articleNumber.getD "" = k
    · rw [if_pos h2.symm, if_pos ⟨h1.1, h1.2, h2⟩]
    · rw [if_neg (fun hk => h2 hk.symm), if_neg (fun hc => h2 hc.2.2)]
  · rw [if_neg h1, if_neg (fun hc => h1 ⟨hc.1, hc.2.1⟩)]

lemma foldl_mapStep_ne_none (data : List WorkItem) :
    ∀ (m : String → Option String) (k : String),
      (data.foldl mapStep m k ≠ none) ↔
        (∃ item ∈ data, contributesEntry k item) ∨ m k ≠ none := by
  induction data with
  | nil => intro m k; simp
  | cons i rest ih =>
      intro m k
      rw [List.foldl_cons, ih (mapStep m i) k, mapStep_apply]
      by_cases hc : contributesEntry k i
      · simp [hc]
      · simp [hc]

lemma foldl_mapStep_some (data : List WorkItem) :
    ∀ (m : String → Option String) (k v : String),
      data.foldl mapStep m k = some v →
        (∃ item ∈ data, contributesEntry k item ∧ item.doneBy.getD "" = v) ∨
          m k = some v := by
  induction data with
  | nil => intro m k v h; exact Or.inr h
  | cons i rest ih =>
      intro m k v h
      rw [List.foldl_cons] at h
      rcases ih (mapStep m i) k v h with ⟨item, hmem, hcond⟩ | hbase
      · exact Or.inl ⟨item, List.mem_cons_of_mem i hmem, hcond⟩
      · rw [mapStep_apply] at hbase
        by_cases hc : contributesEntry k i
        · rw [if_pos hc] at hbase
          exact Or.inl ⟨i, List.mem_cons_self i rest,
            hc, Option.some.inj hbase⟩
        · rw [if_neg hc] at hbase
          exact Or.inr hbase

/-- C10: whenever a fetch settles, the in-flight guard is cleared and the
stored promise is null; on failure, `hasFetched` is reset (so the next call
starts a fresh request) and the article map and cached response are exactly
what they were before; on success, `hasFetched` is set, the response is
stored, and the rebuilt article map has an entry at a key exactly when some
response item carries both a truthy article number equal to that key and a
truthy done-by, the value coming from such an item. -/
theorem settle_clears_guard_error_preserves_state_success_rebuilds_map
    (s : ApiState) (outcome : Except Unit (List WorkItem)) :
    ((settleFetch outcome s).isFetching = false) ∧
    ((settleFetch outcome s).fetchPromise = none) ∧
    (outcome = Except.error () →
      (settleFetch outcome s).hasFetched = false ∧
      (settleFetch outcome s).articleDoneByMap = s.articleDoneByMap ∧
      (settleFetch outcome s).apiResponseData = s.apiResponseData ∧
      (fetchDoneByData false (settleFetch outcome s)).startedRequest = true) ∧
    (∀ data, outcome = Except.ok data →
      (settleFetch outcome s).hasFetched = true ∧
      (settleFetch outcome s).apiResponseData = some data ∧
      (∀ k : String,
        ((settleFetch outcome s).articleDoneByMap k ≠ none ↔
          ∃ item ∈ data, contributesEntry k item) ∧
        (∀ v, (settleFetch outcome s).articleDoneByMap k = some v →
          ∃ item ∈ data, contributesEntry k item ∧ item.doneBy.getD "" = v))) := by
  refine ⟨?_, ?_, fun herr => ?_, fun data hok => ?_⟩
  · cases outcome <;> rfl
  · cases outcome <;> rfl
  · subst herr
    refine ⟨rfl, rfl, rfl, ?_⟩
    unfold fetchDoneByData
    rw [if_neg (by simp [settleFetch]), if_neg (by simp [settleFetch])]
  · subst hok
    refine ⟨rfl, rfl, fun k => ⟨?_, fun v hv => ?_⟩⟩
    · have h := foldl_mapStep_ne_none data (fun _ => none) k
      simpa [settleFetch, buildArticleMap] using h
    · have h := foldl_mapStep_some data (fun _ => none) k v
        (by simpa [settleFetch, buildArticleMap] using hv)
      rcases h with hgood | hbad
      · exact hgood
      · exact absurd hbad (by simp)

/-- Witness for C10 at concrete inputs. -/
theorem settle_clears_guard_error_preserves_state_success_rebuilds_map_witness :
    (settleFetch (Except.error ()) apiInit).hasFetched = false ∧
    (settleFetch (Except.ok [⟨some "Ruchi", some "A1"⟩]) apiInit).hasFetched = true :=
  ⟨((settle_clears_guard_error_preserves_state_success_rebuilds_map apiInit
      (Except.error ())).2.2.1 rfl).1,
   ((settle_clears_guard_error_preserves_state_success_rebuilds_map apiInit
      (Except.ok [⟨some "Ruchi", some "A1"⟩])).2.2.2
      [⟨some "Ruchi", some "A1"⟩] rfl).1⟩

/-- Witness for C8 amended at concrete inputs. -/
theorem check_interval_clamped_with_falsy_default_witness :
    getCheckIntervalHours (some 99) = max 1 (min 10 99) ∧
    (1 ≤ getCheckIntervalHours (some (-4)) ∧ getCheckIntervalHours (some (-4)) ≤ 10) :=
  ⟨check_interval_clamped_with_falsy_default.2.2.1 99 (by decide),
   check_interval_clamped_with_falsy_default.2.2.2.1 (some (-4))⟩

end NcExt
